import Mathlib

/-!
# Verification of the arka-light paymaster core

A shallow embedding of `src/paymaster.rs`, `src/types.rs` and
`src/error.rs` of the `arka-light` ERC-4337 paymaster service, together
with proofs settling the specification claims about it.

Modelling conventions:
* An EVM 256-bit unsigned integer (`U256` in the source) is a `Nat`
  together with explicit bounds `< 2 ^ 256`; the `checked_add` /
  `checked_mul` / `checked_div` methods of `U256` are embedded as
  `Option Nat` functions that return `none` exactly when the true result
  does not fit in 256 bits.
* A Rust `u64` is a `Nat` understood modulo `2 ^ 64`; the unchecked `+`
  of the source wraps in release builds, embedded as addition modulo
  `2 ^ 64`.
* Byte sequences (`Bytes`, `Address`, `H256`) are `List Nat` of byte
  values; `Address` values carry a `length = 20` hypothesis where needed.
* The external collaborators are parameters: `keccak` stands for
  `ethers::utils::keccak256` (an arbitrary function to 32-byte digests),
  `sign_message` for `LocalWallet::sign_message` (`none` = backend
  failure), the clock value `now` and the balance-query outcome
  `getBalance` are inputs of the pipeline function.  `getBalance = none`
  models a provider error; the pipeline result records whether the
  balance query was reached.
-/

deriving instance DecidableEq for Except

/-- `2 ^ 256`, the first value that no longer fits in a `U256`. -/
def U256_LIMIT : Nat := 2 ^ 256

/-- `2 ^ 64`, the first value that no longer fits in a `u64`. -/
def U64_LIMIT : Nat := 2 ^ 64

/-- `U256::checked_add`: `some (a + b)` when it fits in 256 bits. -/
def checked_add (a b : Nat) : Option Nat :=
  if a + b < U256_LIMIT then some (a + b) else none

/-- `U256::checked_mul`: `some (a * b)` when it fits in 256 bits. -/
def checked_mul (a b : Nat) : Option Nat :=
  if a * b < U256_LIMIT then some (a * b) else none

/-- `U256::checked_div`: truncating division, `none` only on a zero divisor. -/
def checked_div (a b : Nat) : Option Nat :=
  if b = 0 then none else some (a / b)

/-- Unchecked `u64` addition as compiled in release mode: wraps modulo `2 ^ 64`. -/
def wrappingAdd64 (a b : Nat) : Nat := (a + b) % U64_LIMIT

/-- Minimal big-endian byte representation of `n` (empty for `0`), via a
fuel argument so that it evaluates by kernel reduction; `n` itself is
enough fuel since each step divides by 256. -/
def beBytesAux : Nat → Nat → List Nat
  | 0, _ => []
  | fuel + 1, n => if n = 0 then [] else beBytesAux fuel (n / 256) ++ [n % 256]

/-- Minimal big-endian bytes of `n`; `beBytes 0 = []`. -/
def beBytes (n : Nat) : List Nat := beBytesAux n n

/-- `ethers::utils::rlp::encode` of an unsigned integer below `2 ^ 256`:
`0` is the empty string (`0x80`), a single byte below `0x80` encodes as
itself, otherwise a short-string header `0x80 + len` precedes the minimal
big-endian bytes. -/
def rlpNat (n : Nat) : List Nat :=
  if n = 0 then [128]
  else if n < 128 then [n]
  else (128 + (beBytes n).length) :: beBytes n

/-- `n.to_be_bytes()` for a `w`-byte word: exactly `w` bytes, big-endian,
keeping the low `8 * w` bits of `n`. -/
def beBytesFixed (w : Nat) (n : Nat) : List Nat :=
  match w with
  | 0 => []
  | w + 1 => beBytesFixed w (n / 256) ++ [n % 256]

/-- Big-endian value of a byte list (the decoding direction). -/
def beVal (bytes : List Nat) : Nat :=
  bytes.foldl (fun acc b => acc * 256 + b) 0

/-- `src/error.rs`: the `PaymasterError` enum.  (The spec calls
`InvalidUserOperation` "InvalidOperation" and `EthereumProviderError`
"ProviderError".) -/
inductive PaymasterError : Type where
  | InvalidUserOperation : String → PaymasterError
  | InsufficientFunds : PaymasterError
  | SignatureVerificationFailed : PaymasterError
  | TransactionReverted : String → PaymasterError
  | EthereumProviderError : String → PaymasterError
  | InvalidParameters : String → PaymasterError
  | UnsupportedOperation : PaymasterError
deriving DecidableEq, Repr

/-- `src/types.rs`: `UserOperation`.  Addresses and byte strings are byte
lists, `U256` fields are `Nat`. -/
structure UserOperation : Type where
  sender : List Nat
  nonce : Nat
  init_code : List Nat
  call_data : List Nat
  call_gas_limit : Nat
  verification_gas_limit : Nat
  pre_verification_gas : Nat
  max_fee_per_gas : Nat
  max_priority_fee_per_gas : Nat
  paymaster_and_data : List Nat
  signature : List Nat
deriving DecidableEq, Repr

/-- `src/types.rs`: `PaymasterResponse`. -/
structure PaymasterResponse : Type where
  paymaster_and_data : List Nat
deriving DecidableEq, Repr

/-- `src/paymaster.rs`: the `Paymaster` struct.  The wallet and provider
are replaced by their observable behaviour: `keccak` is the hash
collaborator, `sign_message` the signing backend (`none` = error). -/
structure Paymaster : Type where
  paymaster_address : List Nat
  chain_id : Nat
  valid_duration : Nat
  gas_price_buffer : Nat
  keccak : List Nat → List Nat
  sign_message : List Nat → Option (List Nat)

/-- `Paymaster::new`: fixes `valid_duration = 3600` and
`gas_price_buffer = 10`; the address is the wallet's address. -/
def Paymaster.new (addr : List Nat) (chain_id : Nat)
    (keccak : List Nat → List Nat) (sign : List Nat → Option (List Nat)) :
    Paymaster :=
  { paymaster_address := addr
    chain_id := chain_id
    valid_duration := 3600
    gas_price_buffer := 10
    keccak := keccak
    sign_message := sign }

/-- `Paymaster::validate_user_operation`: rejects a zero
`max_fee_per_gas` or `max_priority_fee_per_gas`, accepts otherwise. -/
def Paymaster.validate_user_operation (_p : Paymaster) (user_op : UserOperation) :
    Except PaymasterError Unit :=
  if user_op.max_fee_per_gas = 0 ∨ user_op.max_priority_fee_per_gas = 0 then
    .error (.InvalidUserOperation ("Gas price cannot be zero"))
  else
    .ok ()

/-- `Paymaster::calculate_max_cost`: checked sum of the three gas
limits, checked `max_fee_per_gas * (100 + buffer) / 100`, checked
product of the two. -/
def Paymaster.calculate_max_cost (p : Paymaster) (user_op : UserOperation) :
    Except PaymasterError Nat :=
  match Option.bind (checked_add user_op.call_gas_limit user_op.verification_gas_limit)
      (fun sum => checked_add sum user_op.pre_verification_gas) with
  | none => .error (.InvalidUserOperation ("Gas limit overflow"))
  | some total_gas =>
    match Option.bind (checked_mul user_op.max_fee_per_gas (100 + p.gas_price_buffer))
        (fun product => checked_div product 100) with
    | none => .error (.InvalidUserOperation ("Gas price calculation error"))
    | some buffered_gas_price =>
      match checked_mul total_gas buffered_gas_price with
      | none => .error (.InvalidUserOperation ("Max cost calculation overflow"))
      | some max_cost => .ok max_cost

/-- `Paymaster::check_paymaster_balance`, after the balance has been
fetched: `InsufficientFunds` when `balance <= max_cost`. -/
def Paymaster.check_paymaster_balance (_p : Paymaster) (balance max_cost : Nat) :
    Except PaymasterError Unit :=
  if balance ≤ max_cost then .error .InsufficientFunds else .ok ()

/-- `Paymaster::hash_user_operation`: packs
sender ‖ rlp(nonce) ‖ keccak(init_code) ‖ keccak(call_data) ‖
rlp(call_gas_limit) ‖ rlp(verification_gas_limit) ‖
rlp(pre_verification_gas) ‖ rlp(max_fee_per_gas) ‖
rlp(max_priority_fee_per_gas), hashes it, then hashes
hash ‖ rlp(chain_id) ‖ paymaster_address.  The `data` accumulator is
built by successive `extend_from_slice`, i.e. left-nested appends. -/
def Paymaster.hash_user_operation (p : Paymaster) (user_op : UserOperation) :
    List Nat :=
  let data :=
    [] ++ user_op.sender
       ++ rlpNat user_op.nonce
       ++ p.keccak user_op.init_code
       ++ p.keccak user_op.call_data
       ++ rlpNat user_op.call_gas_limit
       ++ rlpNat user_op.verification_gas_limit
       ++ rlpNat user_op.pre_verification_gas
       ++ rlpNat user_op.max_fee_per_gas
       ++ rlpNat user_op.max_priority_fee_per_gas
  let hash := p.keccak data
  let chain_hash_data := [] ++ hash ++ rlpNat p.chain_id ++ p.paymaster_address
  p.keccak chain_hash_data

/-- `Paymaster::sign_paymaster_data`: hashes
paymaster_address ‖ valid_until.to_be_bytes() ‖ valid_after.to_be_bytes()
‖ hash_user_operation(op) and hands the digest to the wallet;
a backend error becomes `SignatureVerificationFailed`. -/
def Paymaster.sign_paymaster_data (p : Paymaster) (user_op : UserOperation)
    (valid_until valid_after : Nat) : Except PaymasterError (List Nat) :=
  let user_op_hash := p.hash_user_operation user_op
  let message :=
    [] ++ p.paymaster_address
       ++ beBytesFixed 8 valid_until
       ++ beBytesFixed 8 valid_after
       ++ user_op_hash
  let message_hash := p.keccak message
  match p.sign_message message_hash with
  | some signature => .ok signature
  | none => .error .SignatureVerificationFailed

/-- `Paymaster::encode_paymaster_data`:
paymaster_address ‖ valid_until zero-padded to 32 bytes ‖ valid_after
zero-padded to 32 bytes ‖ signature.  The source writes the 8
`to_be_bytes()` bytes into the tail of a zeroed 32-byte array. -/
def Paymaster.encode_paymaster_data (p : Paymaster)
    (valid_until valid_after : Nat) (signature : List Nat) :
    Except PaymasterError (List Nat) :=
  let data :=
    [] ++ p.paymaster_address
       ++ (List.replicate 24 0 ++ beBytesFixed 8 valid_until)
       ++ (List.replicate 24 0 ++ beBytesFixed 8 valid_after)
       ++ signature
  .ok data

/-- Outcome of one `sign_user_operation` call: the returned value and
whether the pipeline reached the balance query (the only network call). -/
structure SignOutcome : Type where
  result : Except PaymasterError PaymasterResponse
  balance_queried : Bool

/-- `Paymaster::sign_user_operation`: validate, estimate, balance-check,
pick the validity window, sign, encode.  `now` is the clock reading
(`SystemTime::now` seconds), `getBalance` the provider's answer
(`none` = provider error).  Each `?` short-circuits in source order. -/
def Paymaster.sign_user_operation (p : Paymaster) (user_op : UserOperation)
    (now : Nat) (getBalance : Option Nat) : SignOutcome :=
  match p.validate_user_operation user_op with
  | .error e => ⟨.error e, false⟩
  | .ok () =>
    match p.calculate_max_cost user_op with
    | .error e => ⟨.error e, false⟩
    | .ok max_cost =>
      match getBalance with
      | none => ⟨.error (.EthereumProviderError ("provider failure")), true⟩
      | some balance =>
        match p.check_paymaster_balance balance max_cost with
        | .error e => ⟨.error e, true⟩
        | .ok () =>
          let valid_until := wrappingAdd64 now p.valid_duration
          let valid_after := now
          match p.sign_paymaster_data user_op valid_until valid_after with
          | .error e => ⟨.error e, true⟩
          | .ok signature =>
            match p.encode_paymaster_data valid_until valid_after signature with
            | .error e => ⟨.error e, true⟩
            | .ok paymaster_and_data => ⟨.ok ⟨paymaster_and_data⟩, true⟩

/-- The validity window `sign_user_operation` computes from the clock
reading: `(valid_until, valid_after) = (now + duration mod 2^64, now)`. -/
def Paymaster.validityWindow (p : Paymaster) (now : Nat) : Nat × Nat :=
  (wrappingAdd64 now p.valid_duration, now)

/-!
## Spec-side definitions

Written from the specification's words (§4.4, §4.5, §3 of `spec.md`),
to be compared against the embedded source functions above.
-/

/-- Spec §4.4 `hashOperation`: Hash1 = keccak of
sender ‖ RLP(nonce) ‖ keccak(initCode) ‖ keccak(callData) ‖
RLP(callGasLimit) ‖ RLP(verificationGasLimit) ‖ RLP(preVerificationGas) ‖
RLP(maxFeePerGas) ‖ RLP(maxPriorityFeePerGas), in that order. -/
def hashOperationSpec (keccak : List Nat → List Nat) (op : UserOperation) :
    List Nat :=
  keccak (op.sender ++ rlpNat op.nonce ++ keccak op.init_code
    ++ keccak op.call_data ++ rlpNat op.call_gas_limit
    ++ rlpNat op.verification_gas_limit ++ rlpNat op.pre_verification_gas
    ++ rlpNat op.max_fee_per_gas ++ rlpNat op.max_priority_fee_per_gas)

/-- Spec §4.4: Hash2 = keccak(Hash1 ‖ RLP(chainId) ‖ sponsorAddress). -/
def hash2Spec (keccak : List Nat → List Nat) (op : UserOperation)
    (chain_id : Nat) (sponsor : List Nat) : List Nat :=
  keccak (hashOperationSpec keccak op ++ rlpNat chain_id ++ sponsor)

/-- Spec §4.4 `signMessage`: keccak of sponsorAddress ‖ validUntil
(8-byte big-endian) ‖ validAfter (8-byte big-endian) ‖ Hash2. -/
def messageHashSpec (keccak : List Nat → List Nat) (sponsor : List Nat)
    (valid_until valid_after : Nat) (hash2 : List Nat) : List Nat :=
  keccak (sponsor ++ beBytesFixed 8 valid_until ++ beBytesFixed 8 valid_after
    ++ hash2)

/-- Spec §3 Authorization layout: sponsor address (20 bytes) ‖ validUntil
(32-byte big-endian) ‖ validAfter (32-byte big-endian) ‖ signature. -/
def authorizationSpec (sponsor : List Nat) (valid_until valid_after : Nat)
    (signature : List Nat) : List Nat :=
  sponsor ++ beBytesFixed 32 valid_until ++ beBytesFixed 32 valid_after
    ++ signature

/-- Modelled from the spec: the repository has no decoder for the
Authorization byte layout (§8 round-trip names one); this is the layout
of §3 read back — first 20 bytes the sponsor, next 32 the big-endian
validUntil, next 32 the big-endian validAfter, remainder the signature. -/
def decode_paymaster_data (d : List Nat) :
    List Nat × Nat × Nat × List Nat :=
  let sponsor := d.take 20
  let rest1 := d.drop 20
  let valid_until := beVal (rest1.take 32)
  let rest2 := rest1.drop 32
  let valid_after := beVal (rest2.take 32)
  let signature := rest2.drop 32
  (sponsor, valid_until, valid_after, signature)

/-!
## Concrete fixtures

Used by witness and counterexample theorems: a paymaster whose external
collaborators are concrete computable functions, and sample operations.
-/

/-- A stand-in for the keccak collaborator in concrete evaluations
(the claims never depend on the digest values, only on what is hashed):
a constant 32-byte digest. -/
def dummyKeccak : List Nat → List Nat := fun _ => List.replicate 32 0

/-- A stand-in signing backend: always succeeds with a 65-byte signature. -/
def dummySign : List Nat → Option (List Nat) := fun _ => some (List.replicate 65 1)

/-- A concrete 20-byte sponsor address. -/
def exAddr : List Nat := List.replicate 20 7

/-- A concrete paymaster built by `Paymaster.new` (duration 3600, buffer 10). -/
def exPaymaster : Paymaster := Paymaster.new exAddr 1 dummyKeccak dummySign

/-- The spec §8 end-to-end scenario operation. -/
def exOp : UserOperation :=
  { sender := List.replicate 20 3
    nonce := 1
    init_code := []
    call_data := [1, 2, 3]
    call_gas_limit := 100000
    verification_gas_limit := 50000
    pre_verification_gas := 21000
    max_fee_per_gas := 20000000000
    max_priority_fee_per_gas := 1000000000
    paymaster_and_data := []
    signature := [] }

/-- Total gas 10, `max_fee_per_gas` 1: the buffered gas price truncates
to 1, so the cost is 10, not ⌊10 · 1 · 1.10⌋ = 11. -/
def exOpSmallFee : UserOperation :=
  { exOp with
    call_gas_limit := 10
    verification_gas_limit := 0
    pre_verification_gas := 0
    max_fee_per_gas := 1
    max_priority_fee_per_gas := 1 }

/-- Zero total gas but a fee so large that `fee * 110` overflows 256
bits: the true cost is 0, yet the buffered-price step fails. -/
def exOpHugeFee : UserOperation :=
  { exOp with
    call_gas_limit := 0
    verification_gas_limit := 0
    pre_verification_gas := 0
    max_fee_per_gas := 2 ^ 250
    max_priority_fee_per_gas := 1 }

/-- An operation with `max_fee_per_gas = 0`. -/
def exOpZeroFee : UserOperation :=
  { exOp with max_fee_per_gas := 0 }

/-!
## Helper lemmas
-/

theorem beBytesFixed_length (w n : Nat) : (beBytesFixed w n).length = w := by
  induction w generalizing n with
  | zero => rfl
  | succ w ih => simp [beBytesFixed, ih]

theorem beBytesFixed_succ_of_lt (w n : Nat) (h : n < 256 ^ w) :
    beBytesFixed (w + 1) n = 0 :: beBytesFixed w n := by
  induction w generalizing n with
  | zero =>
    have hn : n = 0 := by simpa using h
    subst hn
    rfl
  | succ w ih =>
    have hdiv : n / 256 < 256 ^ w := by
      rw [Nat.div_lt_iff_lt_mul (by norm_num)]
      calc n < 256 ^ (w + 1) := h
        _ = 256 ^ w * 256 := by ring
    show beBytesFixed (w + 1) (n / 256) ++ [n % 256] =
      0 :: (beBytesFixed w (n / 256) ++ [n % 256])
    rw [ih (n / 256) hdiv]
    rfl

theorem replicate_append_beBytesFixed (k w n : Nat) (h : n < 256 ^ w) :
    List.replicate k 0 ++ beBytesFixed w n = beBytesFixed (w + k) n := by
  induction k with
  | zero => simp
  | succ k ih =>
    have hwk : n < 256 ^ (w + k) :=
      lt_of_lt_of_le h (Nat.pow_le_pow_right (by norm_num) (Nat.le_add_right w k))
    calc List.replicate (k + 1) 0 ++ beBytesFixed w n
        = 0 :: (List.replicate k 0 ++ beBytesFixed w n) := by
          rw [List.replicate_succ]; rfl
      _ = 0 :: beBytesFixed (w + k) n := by rw [ih]
      _ = beBytesFixed (w + k + 1) n := (beBytesFixed_succ_of_lt (w + k) n hwk).symm

theorem beVal_beBytesFixed (w n : Nat) (h : n < 256 ^ w) :
    beVal (beBytesFixed w n) = n := by
  induction w generalizing n with
  | zero =>
    have hn : n = 0 := by simpa using h
    subst hn
    rfl
  | succ w ih =>
    have hdiv : n / 256 < 256 ^ w := by
      rw [Nat.div_lt_iff_lt_mul (by norm_num)]
      calc n < 256 ^ (w + 1) := h
        _ = 256 ^ w * 256 := by ring
    show beVal (beBytesFixed w (n / 256) ++ [n % 256]) = n
    unfold beVal
    rw [List.foldl_append]
    have hfold : List.foldl (fun acc b => acc * 256 + b) 0 (beBytesFixed w (n / 256)) = n / 256 :=
      ih (n / 256) hdiv
    simp only [List.foldl_cons, List.foldl_nil, hfold]
    omega

theorem encode_paymaster_data_eq (p : Paymaster) (valid_until valid_after : Nat)
    (signature : List Nat) (hu : valid_until < U64_LIMIT) (hv : valid_after < U64_LIMIT) :
    p.encode_paymaster_data valid_until valid_after signature =
      .ok (authorizationSpec p.paymaster_address valid_until valid_after signature) := by
  have h64 : U64_LIMIT = 256 ^ 8 := by norm_num [U64_LIMIT]
  rw [h64] at hu hv
  unfold Paymaster.encode_paymaster_data authorizationSpec
  rw [replicate_append_beBytesFixed 24 8 valid_until hu,
      replicate_append_beBytesFixed 24 8 valid_after hv]
  simp

theorem sign_paymaster_data_cases (p : Paymaster) (user_op : UserOperation)
    (valid_until valid_after : Nat) :
    (∃ sig, p.sign_paymaster_data user_op valid_until valid_after = .ok sig) ∨
    p.sign_paymaster_data user_op valid_until valid_after =
      .error .SignatureVerificationFailed := by
  unfold Paymaster.sign_paymaster_data
  dsimp only
  split
  · exact Or.inl ⟨_, rfl⟩
  · exact Or.inr rfl

theorem calculate_max_cost_char (p : Paymaster) (op : UserOperation) :
    p.calculate_max_cost op =
      if U256_LIMIT ≤ op.call_gas_limit + op.verification_gas_limit + op.pre_verification_gas then
        .error (.InvalidUserOperation ("Gas limit overflow"))
      else if U256_LIMIT ≤ op.max_fee_per_gas * (100 + p.gas_price_buffer) then
        .error (.InvalidUserOperation ("Gas price calculation error"))
      else if U256_LIMIT ≤ (op.call_gas_limit + op.verification_gas_limit + op.pre_verification_gas) *
          (op.max_fee_per_gas * (100 + p.gas_price_buffer) / 100) then
        .error (.InvalidUserOperation ("Max cost calculation overflow"))
      else
        .ok ((op.call_gas_limit + op.verification_gas_limit + op.pre_verification_gas) *
          (op.max_fee_per_gas * (100 + p.gas_price_buffer) / 100)) := by
  unfold Paymaster.calculate_max_cost checked_add checked_mul checked_div
  by_cases h1 : op.call_gas_limit + op.verification_gas_limit < U256_LIMIT
  · by_cases h2 : op.call_gas_limit + op.verification_gas_limit + op.pre_verification_gas < U256_LIMIT
    · by_cases h3 : op.max_fee_per_gas * (100 + p.gas_price_buffer) < U256_LIMIT
      · by_cases h4 : (op.call_gas_limit + op.verification_gas_limit + op.pre_verification_gas) *
            (op.max_fee_per_gas * (100 + p.gas_price_buffer) / 100) < U256_LIMIT
        · have r2 : ¬ U256_LIMIT ≤ op.call_gas_limit + op.verification_gas_limit + op.pre_verification_gas := by omega
          have r3 : ¬ U256_LIMIT ≤ op.max_fee_per_gas * (100 + p.gas_price_buffer) := by omega
          have r4 : ¬ U256_LIMIT ≤ (op.call_gas_limit + op.verification_gas_limit + op.pre_verification_gas) *
              (op.max_fee_per_gas * (100 + p.gas_price_buffer) / 100) := by omega
          simp [h1, h2, h3, h4, r2, r3, r4, Option.bind]
        · have r2 : ¬ U256_LIMIT ≤ op.call_gas_limit + op.verification_gas_limit + op.pre_verification_gas := by omega
          have r3 : ¬ U256_LIMIT ≤ op.max_fee_per_gas * (100 + p.gas_price_buffer) := by omega
          have r4 : U256_LIMIT ≤ (op.call_gas_limit + op.verification_gas_limit + op.pre_verification_gas) *
              (op.max_fee_per_gas * (100 + p.gas_price_buffer) / 100) := by omega
          simp [h1, h2, h3, h4, r2, r3, r4, Option.bind]
      · have r2 : ¬ U256_LIMIT ≤ op.call_gas_limit + op.verification_gas_limit + op.pre_verification_gas := by omega
        have r3 : U256_LIMIT ≤ op.max_fee_per_gas * (100 + p.gas_price_buffer) := by omega
        simp [h1, h2, h3, r2, r3, Option.bind]
    · have r2 : U256_LIMIT ≤ op.call_gas_limit + op.verification_gas_limit + op.pre_verification_gas := by omega
      simp [h1, h2, r2, Option.bind]
  · have r2 : U256_LIMIT ≤ op.call_gas_limit + op.verification_gas_limit + op.pre_verification_gas := by omega
    simp [h1, r2, Option.bind]

/-!
## Claim theorems
-/

/-- Claim C2: `hash_user_operation` computes
Hash1 = keccak256(sender ‖ RLP(nonce) ‖ keccak256(initCode) ‖
keccak256(callData) ‖ RLP(callGasLimit) ‖ RLP(verificationGasLimit) ‖
RLP(preVerificationGas) ‖ RLP(maxFeePerGas) ‖ RLP(maxPriorityFeePerGas))
in exactly that field order, and returns
Hash2 = keccak256(Hash1 ‖ RLP(chainId) ‖ sponsorAddress). -/
theorem spec_C2 (p : Paymaster) (op : UserOperation) :
    p.hash_user_operation op = hash2Spec p.keccak op p.chain_id p.paymaster_address := by
  simp [Paymaster.hash_user_operation, hash2Spec, hashOperationSpec, List.append_assoc]

/-- Claim C5: the message hash handed to the wallet by
`sign_paymaster_data` is keccak256(sponsorAddress ‖ validUntil as 8-byte
big-endian ‖ validAfter as 8-byte big-endian ‖ Hash2), where Hash2 is
the operation hash from `hash_user_operation`. -/
theorem spec_C5 (p : Paymaster) (op : UserOperation) (valid_until valid_after : Nat) :
    p.sign_paymaster_data op valid_until valid_after =
      match p.sign_message (messageHashSpec p.keccak p.paymaster_address
          valid_until valid_after (p.hash_user_operation op)) with
      | some signature => .ok signature
      | none => .error .SignatureVerificationFailed := by
  simp [Paymaster.sign_paymaster_data, messageHashSpec, List.append_assoc]

/-- Claim C9: the operation's own `paymaster_and_data` and `signature`
fields have no effect: two operations that differ only in those fields
get the same `hash_user_operation` hash and the same
`sign_user_operation` outcome under the same clock, balance and signer. -/
theorem spec_C9 (p : Paymaster) (op : UserOperation) (pd sg : List Nat)
    (now : Nat) (getBalance : Option Nat) :
    p.hash_user_operation { op with paymaster_and_data := pd, signature := sg } =
      p.hash_user_operation op ∧
    p.sign_user_operation { op with paymaster_and_data := pd, signature := sg } now getBalance =
      p.sign_user_operation op now getBalance :=
  ⟨rfl, rfl⟩

/-- Claim C10: `validate_user_operation` accepts exactly the operations
whose two fee fields are both nonzero, and inspects no other field
(replacing every other field leaves the verdict unchanged). -/
theorem spec_C10 (p : Paymaster) (op : UserOperation) (sender : List Nat) (nonce : Nat)
    (init_code call_data : List Nat) (cgl vgl pvg : Nat) (pd sg : List Nat) :
    p.validate_user_operation
      { sender := sender, nonce := nonce, init_code := init_code,
        call_data := call_data, call_gas_limit := cgl,
        verification_gas_limit := vgl, pre_verification_gas := pvg,
        max_fee_per_gas := op.max_fee_per_gas,
        max_priority_fee_per_gas := op.max_priority_fee_per_gas,
        paymaster_and_data := pd, signature := sg } =
      p.validate_user_operation op ∧
    (p.validate_user_operation op = .ok () ↔
      op.max_fee_per_gas ≠ 0 ∧ op.max_priority_fee_per_gas ≠ 0) := by
  constructor
  · rfl
  · by_cases h1 : op.max_fee_per_gas = 0
    · simp [Paymaster.validate_user_operation, h1]
    · by_cases h2 : op.max_priority_fee_per_gas = 0
      · simp [Paymaster.validate_user_operation, h1, h2]
      · simp [Paymaster.validate_user_operation, h1, h2]

/-- Claim C3: an operation with a zero `max_fee_per_gas` or a zero
`max_priority_fee_per_gas` makes `sign_user_operation` fail with
`InvalidUserOperation` and the balance query is never reached. -/
theorem spec_C3 (p : Paymaster) (op : UserOperation) (now : Nat) (getBalance : Option Nat)
    (h : op.max_fee_per_gas = 0 ∨ op.max_priority_fee_per_gas = 0) :
    (p.sign_user_operation op now getBalance).result =
      .error (.InvalidUserOperation ("Gas price cannot be zero")) ∧
    (p.sign_user_operation op now getBalance).balance_queried = false := by
  have hv : p.validate_user_operation op =
      .error (.InvalidUserOperation ("Gas price cannot be zero")) := by
    unfold Paymaster.validate_user_operation
    rw [if_pos h]
  simp [Paymaster.sign_user_operation, hv]

/-- Witness for C3 at the zero-fee operation. -/
theorem spec_C3_witness :
    (exOpZeroFee.max_fee_per_gas = 0 ∨ exOpZeroFee.max_priority_fee_per_gas = 0) ∧
    ((exPaymaster.sign_user_operation exOpZeroFee 1000 (some 10)).result =
      .error (.InvalidUserOperation ("Gas price cannot be zero")) ∧
     (exPaymaster.sign_user_operation exOpZeroFee 1000 (some 10)).balance_queried = false) :=
  ⟨Or.inl rfl, spec_C3 exPaymaster exOpZeroFee 1000 (some 10) (Or.inl rfl)⟩

/-- Claim C4: `check_paymaster_balance` fails with `InsufficientFunds`
exactly when balance ≤ cost, succeeds exactly when balance > cost, and
when balance > cost the pipeline proceeds past the funds check (the
query happened, and `InsufficientFunds` is not the outcome). -/
theorem spec_C4 (p : Paymaster) (op : UserOperation) (now balance max_cost : Nat) :
    (p.check_paymaster_balance balance max_cost = .error .InsufficientFunds ↔
      balance ≤ max_cost) ∧
    (p.check_paymaster_balance balance max_cost = .ok () ↔ max_cost < balance) ∧
    (p.validate_user_operation op = .ok () →
     p.calculate_max_cost op = .ok max_cost →
     max_cost < balance →
     (p.sign_user_operation op now (some balance)).result ≠ .error .InsufficientFunds ∧
     (p.sign_user_operation op now (some balance)).balance_queried = true) := by
  refine ⟨?_, ?_, ?_⟩
  · unfold Paymaster.check_paymaster_balance
    by_cases hb : balance ≤ max_cost
    · simp [hb]
    · simp [hb]
  · unfold Paymaster.check_paymaster_balance
    by_cases hb : balance ≤ max_cost
    · simp [hb]
    · simp [hb]
      omega
  · intro hv hc hlt
    have hb : p.check_paymaster_balance balance max_cost = .ok () := by
      unfold Paymaster.check_paymaster_balance
      rw [if_neg (by omega)]
    rcases sign_paymaster_data_cases p op (wrappingAdd64 now p.valid_duration) now with
      ⟨sig, hs⟩ | hs
    · simp [Paymaster.sign_user_operation, hv, hc, hb, hs, Paymaster.encode_paymaster_data]
    · simp [Paymaster.sign_user_operation, hv, hc, hb, hs]

/-- Witness for C4 at the spec's end-to-end scenario: cost
171000 · 22·10⁹ = 3.762·10¹⁵ wei against a 10-ether balance. -/
theorem spec_C4_witness :
    (exPaymaster.validate_user_operation exOp = .ok () ∧
     exPaymaster.calculate_max_cost exOp = .ok 3762000000000000 ∧
     3762000000000000 < 10000000000000000000) ∧
    ((exPaymaster.sign_user_operation exOp 1000 (some 10000000000000000000)).result ≠
      .error .InsufficientFunds ∧
     (exPaymaster.sign_user_operation exOp 1000 (some 10000000000000000000)).balance_queried =
      true) :=
  ⟨⟨by decide, by decide, by decide⟩,
    (spec_C4 exPaymaster exOp 1000 10000000000000000000 3762000000000000).2.2
      (by decide) (by decide) (by decide)⟩

/-- Claim C1 (amended): `calculate_max_cost` returns
totalGas · ⌊maxFeePerGas · 110 / 100⌋ — the buffer is applied to the
gas price and truncated *before* the multiplication by total gas, not
to the full product; it fails with `InvalidUserOperation` exactly when
the gas-limit sum, `maxFeePerGas * 110`, or the final product exceeds
256 bits; and whenever it fails the balance query is never invoked. -/
theorem spec_C1 (p : Paymaster) (op : UserOperation) (hbuf : p.gas_price_buffer = 10) :
    (op.call_gas_limit + op.verification_gas_limit + op.pre_verification_gas < U256_LIMIT →
     op.max_fee_per_gas * 110 < U256_LIMIT →
     (op.call_gas_limit + op.verification_gas_limit + op.pre_verification_gas) *
       (op.max_fee_per_gas * 110 / 100) < U256_LIMIT →
     p.calculate_max_cost op =
       .ok ((op.call_gas_limit + op.verification_gas_limit + op.pre_verification_gas) *
         (op.max_fee_per_gas * 110 / 100))) ∧
    ((∃ msg, p.calculate_max_cost op = .error (.InvalidUserOperation msg)) ↔
      (U256_LIMIT ≤ op.call_gas_limit + op.verification_gas_limit + op.pre_verification_gas ∨
       U256_LIMIT ≤ op.max_fee_per_gas * 110 ∨
       U256_LIMIT ≤ (op.call_gas_limit + op.verification_gas_limit + op.pre_verification_gas) *
         (op.max_fee_per_gas * 110 / 100))) ∧
    (∀ now getBalance e, p.calculate_max_cost op = .error e →
      (p.sign_user_operation op now getBalance).balance_queried = false) := by
  have h110 : 100 + p.gas_price_buffer = 110 := by omega
  refine ⟨?_, ?_, ?_⟩
  · intro h1 h2 h3
    rw [calculate_max_cost_char, h110, if_neg (by omega), if_neg (by omega), if_neg (by omega)]
  · rw [calculate_max_cost_char, h110]
    by_cases d1 : U256_LIMIT ≤
        op.call_gas_limit + op.verification_gas_limit + op.pre_verification_gas
    · rw [if_pos d1]
      exact iff_of_true ⟨_, rfl⟩ (Or.inl d1)
    · rw [if_neg d1]
      by_cases d2 : U256_LIMIT ≤ op.max_fee_per_gas * 110
      · rw [if_pos d2]
        exact iff_of_true ⟨_, rfl⟩ (Or.inr (Or.inl d2))
      · rw [if_neg d2]
        by_cases d3 : U256_LIMIT ≤
            (op.call_gas_limit + op.verification_gas_limit + op.pre_verification_gas) *
              (op.max_fee_per_gas * 110 / 100)
        · rw [if_pos d3]
          exact iff_of_true ⟨_, rfl⟩ (Or.inr (Or.inr d3))
        · rw [if_neg d3]
          refine iff_of_false (by simp) ?_
          push_neg
          exact ⟨lt_of_not_le d1, lt_of_not_le d2, lt_of_not_le d3⟩
  · intro now getBalance e he
    cases hval : p.validate_user_operation op with
    | error e2 => simp [Paymaster.sign_user_operation, hval]
    | ok u =>
      cases u
      simp [Paymaster.sign_user_operation, hval, he]

/-- Witness for C1 at the spec's end-to-end scenario operation. -/
theorem spec_C1_witness :
    (exPaymaster.gas_price_buffer = 10 ∧
     exOp.call_gas_limit + exOp.verification_gas_limit + exOp.pre_verification_gas <
       U256_LIMIT ∧
     exOp.max_fee_per_gas * 110 < U256_LIMIT ∧
     (exOp.call_gas_limit + exOp.verification_gas_limit + exOp.pre_verification_gas) *
       (exOp.max_fee_per_gas * 110 / 100) < U256_LIMIT) ∧
    exPaymaster.calculate_max_cost exOp =
      .ok ((exOp.call_gas_limit + exOp.verification_gas_limit + exOp.pre_verification_gas) *
        (exOp.max_fee_per_gas * 110 / 100)) :=
  ⟨⟨rfl, by decide, by decide, by decide⟩,
    (spec_C1 exPaymaster exOp rfl).1 (by decide) (by decide) (by decide)⟩

/-- Counterexample to C1 as stated.  With total gas 10 and fee 1 the
claimed cost ⌊10 · 1 · 1.10⌋ is 11 but the code returns 10 (the buffer
truncates on the price alone).  With total gas 0 and fee 2²⁵⁰ the
claimed criterion (true sum and product fit in 256 bits — both are 0)
predicts success, but the code fails because `fee * 110` overflows. -/
theorem spec_C1_counterexample :
    (exPaymaster.calculate_max_cost exOpSmallFee = .ok 10 ∧
     (exOpSmallFee.call_gas_limit + exOpSmallFee.verification_gas_limit +
        exOpSmallFee.pre_verification_gas) * exOpSmallFee.max_fee_per_gas * 110 / 100 = 11) ∧
    (exPaymaster.calculate_max_cost exOpHugeFee =
       .error (.InvalidUserOperation ("Gas price calculation error")) ∧
     (exOpHugeFee.call_gas_limit + exOpHugeFee.verification_gas_limit +
        exOpHugeFee.pre_verification_gas) * exOpHugeFee.max_fee_per_gas * 110 / 100 = 0 ∧
     exOpHugeFee.call_gas_limit + exOpHugeFee.verification_gas_limit +
        exOpHugeFee.pre_verification_gas < U256_LIMIT) :=
  ⟨⟨by decide, by decide⟩, ⟨by decide, by decide, by decide⟩⟩

/-- Claim C6: `encode_paymaster_data` produces exactly
sponsorAddress (20 bytes) ‖ validUntil as 32-byte big-endian ‖
validAfter as 32-byte big-endian ‖ signature, so a 65-byte signature
gives a 149-byte Authorization. -/
theorem spec_C6 (p : Paymaster) (valid_until valid_after : Nat) (signature : List Nat)
    (ha : p.paymaster_address.length = 20)
    (hu : valid_until < U64_LIMIT) (hv : valid_after < U64_LIMIT) :
    p.encode_paymaster_data valid_until valid_after signature =
      .ok (authorizationSpec p.paymaster_address valid_until valid_after signature) ∧
    (authorizationSpec p.paymaster_address valid_until valid_after signature).length =
      84 + signature.length ∧
    (signature.length = 65 →
      (authorizationSpec p.paymaster_address valid_until valid_after signature).length =
        149) := by
  have hlen : (authorizationSpec p.paymaster_address valid_until valid_after
      signature).length = 84 + signature.length := by
    simp [authorizationSpec, beBytesFixed_length, ha]
    omega
  exact ⟨encode_paymaster_data_eq p valid_until valid_after signature hu hv, hlen,
    fun hs => by rw [hlen, hs]⟩

/-- Witness for C6 at concrete window bounds and a 65-byte signature. -/
theorem spec_C6_witness :
    (exPaymaster.paymaster_address.length = 20 ∧ 5000 < U64_LIMIT ∧ 1400 < U64_LIMIT ∧
     (List.replicate 65 1).length = 65) ∧
    (exPaymaster.encode_paymaster_data 5000 1400 (List.replicate 65 1) =
       .ok (authorizationSpec exPaymaster.paymaster_address 5000 1400
         (List.replicate 65 1)) ∧
     (authorizationSpec exPaymaster.paymaster_address 5000 1400
       (List.replicate 65 1)).length = 149) :=
  ⟨⟨by decide, by decide, by decide, by decide⟩,
    (spec_C6 exPaymaster 5000 1400 (List.replicate 65 1) (by decide) (by decide)
        (by decide)).1,
    (spec_C6 exPaymaster 5000 1400 (List.replicate 65 1) (by decide) (by decide)
        (by decide)).2.2 (by decide)⟩

/-- Claim C7: decoding the Authorization bytes produced by
`encode_paymaster_data` recovers exactly the sponsor address,
validUntil, validAfter and signature that were encoded.  The decoder
is modelled from the spec's §3 layout since the repository ships none. -/
theorem spec_C7 (p : Paymaster) (valid_until valid_after : Nat) (signature d : List Nat)
    (ha : p.paymaster_address.length = 20)
    (hu : valid_until < U64_LIMIT) (hv : valid_after < U64_LIMIT)
    (hd : p.encode_paymaster_data valid_until valid_after signature = .ok d) :
    decode_paymaster_data d =
      (p.paymaster_address, valid_until, valid_after, signature) := by
  rw [encode_paymaster_data_eq p valid_until valid_after signature hu hv] at hd
  injection hd with hd
  subst hd
  have hu32 : valid_until < 256 ^ 32 := lt_of_lt_of_le hu (by norm_num [U64_LIMIT])
  have hv32 : valid_after < 256 ^ 32 := lt_of_lt_of_le hv (by norm_num [U64_LIMIT])
  simp only [decode_paymaster_data, authorizationSpec, List.append_assoc]
  rw [List.take_left' ha, List.drop_left' ha,
      List.take_left' (beBytesFixed_length 32 valid_until),
      List.drop_left' (beBytesFixed_length 32 valid_until),
      List.take_left' (beBytesFixed_length 32 valid_after),
      List.drop_left' (beBytesFixed_length 32 valid_after),
      beVal_beBytesFixed 32 valid_until hu32,
      beVal_beBytesFixed 32 valid_after hv32]

/-- Witness for C7: a concrete round trip through encode and decode. -/
theorem spec_C7_witness :
    (exPaymaster.paymaster_address.length = 20 ∧
     exPaymaster.encode_paymaster_data 5000 1400 (List.replicate 65 1) =
       .ok (authorizationSpec exAddr 5000 1400 (List.replicate 65 1))) ∧
    decode_paymaster_data (authorizationSpec exAddr 5000 1400 (List.replicate 65 1)) =
      (exPaymaster.paymaster_address, 5000, 1400, List.replicate 65 1) :=
  ⟨⟨by decide, by decide⟩,
    spec_C7 exPaymaster 5000 1400 (List.replicate 65 1)
      (authorizationSpec exAddr 5000 1400 (List.replicate 65 1))
      (by decide) (by decide) (by decide) (by decide)⟩

/-- Claim C8 (amended): for every clock reading `now` such that
`now + duration` does not overflow a `u64`, the window computed by
`sign_user_operation` satisfies validUntil − validAfter = duration and
validUntil > validAfter (the configured duration is positive;
`Paymaster::new` fixes it at the default 3600).  The unamended claim
fails at `now = 2⁶⁴ − 1`, where the unchecked `u64` addition wraps. -/
theorem spec_C8 (p : Paymaster) (now : Nat)
    (hdur : 0 < p.valid_duration) (hnow : now + p.valid_duration < U64_LIMIT) :
    ((p.validityWindow now).1 - (p.validityWindow now).2 = p.valid_duration ∧
     (p.validityWindow now).2 < (p.validityWindow now).1) ∧
    (∀ addr chain_id keccak sign,
      (Paymaster.new addr chain_id keccak sign).valid_duration = 3600) := by
  constructor
  · simp only [Paymaster.validityWindow, wrappingAdd64]
    rw [Nat.mod_eq_of_lt hnow]
    omega
  · intro addr chain_id keccak sign
    rfl

/-- Witness for C8 at a realistic clock value. -/
theorem spec_C8_witness :
    (0 < exPaymaster.valid_duration ∧
     1700000000 + exPaymaster.valid_duration < U64_LIMIT) ∧
    ((exPaymaster.validityWindow 1700000000).1 - (exPaymaster.validityWindow 1700000000).2 =
       exPaymaster.valid_duration ∧
     (exPaymaster.validityWindow 1700000000).2 <
       (exPaymaster.validityWindow 1700000000).1) :=
  ⟨⟨by decide, by decide⟩, (spec_C8 exPaymaster 1700000000 (by decide) (by decide)).1⟩

/-- Counterexample to C8 as stated: at clock value 2⁶⁴ − 1 the wrapped
validUntil is 3599, so neither validUntil − validAfter = 3600 nor
validUntil > validAfter holds. -/
theorem spec_C8_counterexample :
    ¬ ((exPaymaster.validityWindow (U64_LIMIT - 1)).1 -
         (exPaymaster.validityWindow (U64_LIMIT - 1)).2 = exPaymaster.valid_duration ∧
       (exPaymaster.validityWindow (U64_LIMIT - 1)).2 <
         (exPaymaster.validityWindow (U64_LIMIT - 1)).1) := by
  decide
